import Mathlib

/-!
Verification of the AMT (Automatic Multicast Tunneling) message codec of
src/amt.py against its natural-language specification.

The source file declares five scapy Packet classes; scapy derives the
encoder (build) and the decoder (dissect) from each declarative
`fields_desc` list.  This development shallowly embeds that derived
encode/decode semantics:

* bytes are `Nat` values < 256, buffers are `List Nat`;
* a scapy `BitField` group packing to whole bytes is emitted as explicit
  arithmetic on those bytes (MSB-first within each byte, as scapy packs);
* `IntField` (4 bytes), `XShortField` (2 bytes), `MACField` (6 bytes),
  `IPField` (4 bytes) and `IP6Field` (16 bytes) are modelled as unsigned
  big-endian numbers of the corresponding width;
* `ConditionalField` contributes bytes only when its condition holds;
  a zero-width `BitField` (the `mld_code` field) contributes nothing;
  on dissection an inactive conditional field keeps its declared default;
* `FieldListField` with `count_from` emits every element of the stored
  list on build; on dissection its read loop is `while s:`, so it reads
  at most the declared count and stops, successfully, at the end of the
  buffer, returning the shorter list that fits;
* an exception that aborts a build or a dissection (the AttributeError
  raised by the `pkt.len` selectors of the Relay Advertisement
  relay_addr field, or struct.error on a partial trailing address) is
  modelled as `none`;
* the `checksum` field (`XShortField` default `None`) has no `post_build`
  computation anywhere in the source, so it is an ordinary 16-bit field
  whose `None` default builds as 0;
* decoding requires the buffer to be consumed exactly (any trailing bytes
  would become a separate payload in scapy and the dissected value would
  no longer equal the original message).
-/

namespace AMT

/-- Message length constant from src/amt.py line 21 (AMT_REQUEST_MSG_LEN). -/
def AMT_REQUEST_MSG_LEN : Nat := 9

/-- Message length constant from src/amt.py line 22 (AMT_DISCO_MSG_LEN). -/
def AMT_DISCO_MSG_LEN : Nat := 8

/-- Message type constants from src/amt.py lines 27-33. -/
def AMT_RELAY_DISCO : Nat := 1

def AMT_RELAY_ADV : Nat := 2

def AMT_REQUEST : Nat := 3

def AMT_MEM_QUERY : Nat := 4

def AMT_MEM_UPD : Nat := 5

def AMT_MULT_DATA : Nat := 6

def AMT_TEARDOWN : Nat := 7

/-- Big-endian encoding of a natural number into `w` bytes (the scapy
packing of a multi-byte numeric field); values are truncated modulo
`256 ^ w` byte by byte. -/
def encodeBE : Nat → Nat → List Nat
  | 0, _ => []
  | w + 1, n => encodeBE w (n / 256) ++ [n % 256]

/-- Big-endian interpretation of a byte list as a natural number. -/
def decodeBEList (bs : List Nat) : Nat :=
  bs.foldl (fun acc b => acc * 256 + b) 0

/-- Read `w` bytes from the front of a buffer as a big-endian number,
returning the value and the remaining bytes; fails when fewer than `w`
bytes remain. -/
def readN (w : Nat) (bs : List Nat) : Option (Nat × List Nat) :=
  if w ≤ bs.length then some (decodeBEList (bs.take w), bs.drop w) else none

/-- Byte image of an IPv4 source-address list: each element emitted as a
4-byte big-endian value (scapy `FieldListField` of `IPField` on build). -/
def srcBytes (l : List Nat) : List Nat :=
  l.foldr (fun a acc => encodeBE 4 a ++ acc) []

/-- Read up to `n` IPv4 addresses (4 bytes each) from the front of a
buffer (scapy `FieldListField` with `count_from` on dissection).  The
scapy read loop is `while s:`: it stops, successfully, either when the
declared count is exhausted or when the buffer is empty, so a count
larger than the available data yields the shorter list that fits; a
nonempty remainder shorter than one 4-byte address fails (struct.error
inside `IPField.getfield`). -/
def readSrcs : Nat → List Nat → Option (List Nat × List Nat)
  | 0, bs => some ([], bs)
  | n + 1, bs =>
    if bs = [] then some ([], [])
    else
      match readN 4 bs with
      | none => none
      | some (a, r) =>
        match readSrcs n r with
        | none => none
        | some (l, r2) => some (a :: l, r2)

/-!
## AMT_Discovery (src/amt.py lines 42-49)

Fields: version:4, type:4 (default AMT_RELAY_DISCO = 1), rsvd:24,
nonce:32.  Fixed 8 bytes.
-/

structure AMT_Discovery where
  version : Nat := 0
  type : Nat := AMT_RELAY_DISCO
  rsvd : Nat := 0
  nonce : Nat := 0
  deriving Repr, DecidableEq

/-- Structural validity: every field fits its declared bit width. -/
@[reducible] def AMT_Discovery.Valid (m : AMT_Discovery) : Prop :=
  m.version < 16 ∧ m.type < 16 ∧ m.rsvd < 256 ^ 3 ∧ m.nonce < 256 ^ 4

def AMT_Discovery.encode (m : AMT_Discovery) : List Nat :=
  ((m.version % 16) * 16 + m.type % 16) ::
  (encodeBE 3 m.rsvd ++ encodeBE 4 m.nonce)

def AMT_Discovery.decode (bs : List Nat) : Option AMT_Discovery :=
  Option.bind (readN 1 bs) fun a1 =>
  Option.bind (readN 3 a1.2) fun a2 =>
  Option.bind (readN 4 a2.2) fun a3 =>
  if a3.2 = [] then
    some { version := a1.1 / 16, type := a1.1 % 16, rsvd := a2.1, nonce := a3.1 }
  else none

/-!
## AMT_Relay_Advertisement (src/amt.py lines 51-65)

Fields: version:4, type:4 (default AMT_RELAY_ADV = 2), rsvd:24, nonce:32,
then a `MultipleTypeField` for `relay_addr` whose declared variants are
an `IPField` (4 bytes), an `IP6Field` (16 bytes) and a default
`StrField`.  The variant selectors (lines 60-61) are
`lambda pkt: pkt.len == 12` and `lambda pkt: pkt.len == 20`, but the
class declares no field named `len`: scapy attribute lookup falls
through the packet's fields to its payload chain and raises
AttributeError.  The selectors are evaluated with no exception handler
on every build (`MultipleTypeField._find_fld_pkt_val`) and on every
dissection (`MultipleTypeField._find_fld_pkt`), so no Relay
Advertisement is ever built or dissected by the program.  An exception
that aborts the call is modelled as `none`.
-/

inductive RelayAddr where
  | v4 : Nat → RelayAddr
  | v6 : Nat → RelayAddr
  | raw : List Nat → RelayAddr
  deriving Repr, DecidableEq

structure AMT_Relay_Advertisement where
  version : Nat := 0
  type : Nat := AMT_RELAY_ADV
  rsvd : Nat := 0
  nonce : Nat := 0
  relay_addr : RelayAddr := .raw []
  deriving Repr, DecidableEq

/-- Crash point of the relay_addr field on build: scapy evaluates the
`pkt.len` selectors to pick the variant that will serialize the stored
value, and the attribute lookup raises AttributeError before any bytes
are produced; no variant is ever selected. -/
def relayAddrBuild (_a : RelayAddr) : Option (List Nat) := none

/-- Crash point of the relay_addr field on dissection: scapy evaluates
the same `pkt.len` selectors to pick the variant that will consume the
remaining bytes, and the attribute lookup raises AttributeError; no
variant is ever selected and no value is produced. -/
def relayAddrDissect (_bs : List Nat) : Option RelayAddr := none

def AMT_Relay_Advertisement.encode (m : AMT_Relay_Advertisement) : Option (List Nat) :=
  Option.map
    (fun addrBytes =>
      ((m.version % 16) * 16 + m.type % 16) ::
      (encodeBE 3 m.rsvd ++ (encodeBE 4 m.nonce ++ addrBytes)))
    (relayAddrBuild m.relay_addr)

def AMT_Relay_Advertisement.decode (bs : List Nat) : Option AMT_Relay_Advertisement :=
  Option.bind (readN 1 bs) fun a1 =>
  Option.bind (readN 3 a1.2) fun a2 =>
  Option.bind (readN 4 a2.2) fun a3 =>
  Option.bind (relayAddrDissect a3.2) fun addr =>
  some { version := a1.1 / 16, type := a1.1 % 16, rsvd := a2.1, nonce := a3.1,
         relay_addr := addr }

/-!
## AMT_Relay_Request (src/amt.py lines 66-75)

Fields: version:4, type:4 (default AMT_REQUEST = 3), rsvd1:7, p_flag:1,
rsvd2:16, nonce:32.  These bit widths pack to 8 bytes, although the
source constant AMT_REQUEST_MSG_LEN (line 21) claims 9.
-/

structure AMT_Relay_Request where
  version : Nat := 0
  type : Nat := AMT_REQUEST
  rsvd1 : Nat := 0
  p_flag : Nat := 0
  rsvd2 : Nat := 0
  nonce : Nat := 0
  deriving Repr, DecidableEq

/-- Structural validity: every field fits its declared bit width. -/
@[reducible] def AMT_Relay_Request.Valid (m : AMT_Relay_Request) : Prop :=
  m.version < 16 ∧ m.type < 16 ∧ m.rsvd1 < 128 ∧ m.p_flag < 2 ∧
  m.rsvd2 < 256 ^ 2 ∧ m.nonce < 256 ^ 4

def AMT_Relay_Request.encode (m : AMT_Relay_Request) : List Nat :=
  ((m.version % 16) * 16 + m.type % 16) ::
  ((m.rsvd1 % 128) * 2 + m.p_flag % 2) ::
  (encodeBE 2 m.rsvd2 ++ encodeBE 4 m.nonce)

def AMT_Relay_Request.decode (bs : List Nat) : Option AMT_Relay_Request :=
  Option.bind (readN 1 bs) fun a1 =>
  Option.bind (readN 1 a1.2) fun a2 =>
  Option.bind (readN 2 a2.2) fun a3 =>
  Option.bind (readN 4 a3.2) fun a4 =>
  if a4.2 = [] then
    some { version := a1.1 / 16, type := a1.1 % 16, rsvd1 := a2.1 / 2,
           p_flag := a2.1 % 2, rsvd2 := a3.1, nonce := a4.1 }
  else none

/-!
## AMT_Membership_Update (src/amt.py lines 112-149)

Fields: version:4, type:4 (default AMT_MEM_UPD = 5), rsvd1:8,
response_mac (6 bytes), nonce:32, igmp_mld_type (1 byte, default 0x16),
then the embedded group record.  The conditional fields:
`igmp_max_resp_code` (1 byte) and `igmp_group_addr` (4 bytes) exist only
when `igmp_mld_type = 0x11`; `mld_code` (zero bits wide, so never any
bytes), `mld_rsvd1` (2 bytes) and `mld_addr` (16 bytes) exist only when
`igmp_mld_type = 130`; the IPv4 `src_addrs` list exists only when
`igmp_mld_type = 0x11` (the IPv6 source list is commented out in the
source).  The unconditional tail is rsvd2:4, s_flag:1, qrv:3, qqic:8,
num_of_srcs:32.  `checksum` (2 bytes) is unconditional and has no
computation attached.
-/

structure AMT_Membership_Update where
  version : Nat := 0
  type : Nat := AMT_MEM_UPD
  rsvd1 : Nat := 0
  response_mac : Nat := 0
  nonce : Nat := 0
  igmp_mld_type : Nat := 0x16
  igmp_max_resp_code : Nat := 0
  mld_code : Nat := 0
  checksum : Nat := 0
  igmp_group_addr : Nat := 0
  mld_rsvd1 : Nat := 0
  mld_addr : Nat := 0
  rsvd2 : Nat := 0
  s_flag : Nat := 0
  qrv : Nat := 0
  qqic : Nat := 0
  num_of_srcs : Nat := 0
  src_addrs : List Nat := []
  deriving Repr, DecidableEq

/-- Structural validity for a Membership Update: every field fits its
declared width, the declared source count equals the stored list length,
and fields whose `ConditionalField` guard is false hold their declared
defaults (they never reach the wire, so dissection returns the default). -/
@[reducible] def AMT_Membership_Update.Valid (m : AMT_Membership_Update) : Prop :=
  m.version < 16 ∧ m.type < 16 ∧ m.rsvd1 < 256 ∧ m.response_mac < 256 ^ 6 ∧
  m.nonce < 256 ^ 4 ∧ m.igmp_mld_type < 256 ∧ m.igmp_max_resp_code < 256 ∧
  m.mld_code = 0 ∧ m.checksum < 256 ^ 2 ∧ m.igmp_group_addr < 256 ^ 4 ∧
  m.mld_rsvd1 < 256 ^ 2 ∧ m.mld_addr < 256 ^ 16 ∧ m.rsvd2 < 16 ∧
  m.s_flag < 2 ∧ m.qrv < 8 ∧ m.qqic < 256 ∧ m.num_of_srcs < 256 ^ 4 ∧
  m.num_of_srcs = m.src_addrs.length ∧ (∀ a ∈ m.src_addrs, a < 256 ^ 4) ∧
  (m.igmp_mld_type ≠ 0x11 → m.igmp_max_resp_code = 0 ∧ m.igmp_group_addr = 0 ∧
    m.src_addrs = []) ∧
  (m.igmp_mld_type ≠ 130 → m.mld_rsvd1 = 0 ∧ m.mld_addr = 0)

/-!
### Staged byte layout

The wire image of a Membership Update is the fixed header followed by the
embedded group record, which itself is the record front (type byte,
conditional max-response code, checksum, conditional group address,
conditional MLD fields) followed by the record tail (packed
rsvd/s_flag/qrv byte, qqic, num_of_srcs, conditional source list).  The
encoder and decoder below are staged accordingly; the concatenation of
the three stages is exactly the field order of `fields_desc`
(src/amt.py lines 126-148), and the same two record stages are shared by
the Membership Query codec (lines 84-110), whose `fields_desc` declares
the identical embedded record.
-/

/-- Header bytes of a Membership Update: version:4/type:4 byte,
rsvd1 byte, 6-byte response_mac, 4-byte nonce (src/amt.py lines 127-131). -/
def updHdrBytes (v ty r1 mac no : Nat) : List Nat :=
  ((v % 16) * 16 + ty % 16) :: (r1 % 256) ::
  (encodeBE 6 mac ++ encodeBE 4 no)

/-- Parsed header fields of a Membership Update. -/
structure HdrU where
  version : Nat
  type : Nat
  rsvd1 : Nat
  response_mac : Nat
  nonce : Nat
  deriving Repr, DecidableEq

def parseUpdHdr (bs : List Nat) : Option (HdrU × List Nat) :=
  Option.bind (readN 1 bs) fun a1 =>
  Option.bind (readN 1 a1.2) fun a2 =>
  Option.bind (readN 6 a2.2) fun a3 =>
  Option.bind (readN 4 a3.2) fun a4 =>
  some (⟨a1.1 / 16, a1.1 % 16, a2.1, a3.1, a4.1⟩, a4.2)

/-- Front part of the embedded group record: `igmp_mld_type` byte, the
conditional `igmp_max_resp_code` byte (only when the type is 0x11), the
2-byte `checksum`, the conditional 4-byte `igmp_group_addr` (type 0x11),
and the conditional `mld_rsvd1`/`mld_addr` fields (type 130); the
zero-width `mld_code` BitField contributes no bytes
(src/amt.py lines 133-139). -/
def recFrontBytes (t mrc ck ga mr1 ma : Nat) : List Nat :=
  (t % 256) ::
  ((if t = 0x11 then [mrc % 256] else []) ++
   (encodeBE 2 ck ++
    ((if t = 0x11 then encodeBE 4 ga else []) ++
     (if t = 130 then encodeBE 2 mr1 ++ encodeBE 16 ma else []))))

/-- Parsed front fields of the embedded group record. -/
structure RecFront where
  igmp_mld_type : Nat
  igmp_max_resp_code : Nat
  checksum : Nat
  igmp_group_addr : Nat
  mld_rsvd1 : Nat
  mld_addr : Nat
  deriving Repr, DecidableEq

def parseRecFront (bs : List Nat) : Option (RecFront × List Nat) :=
  Option.bind (readN 1 bs) fun a5 =>
  Option.bind (if a5.1 = 0x11 then readN 1 a5.2 else some (0, a5.2)) fun a6 =>
  Option.bind (readN 2 a6.2) fun a7 =>
  Option.bind (if a5.1 = 0x11 then readN 4 a7.2 else some (0, a7.2)) fun a8 =>
  Option.bind (if a5.1 = 130 then readN 2 a8.2 else some (0, a8.2)) fun a9 =>
  Option.bind (if a5.1 = 130 then readN 16 a9.2 else some (0, a9.2)) fun a10 =>
  some (⟨a5.1, a6.1, a7.1, a8.1, a9.1, a10.1⟩, a10.2)

/-- Tail part of the embedded group record: the packed
rsvd:4/s_flag:1/qrv:3 byte, the qqic byte, the 4-byte num_of_srcs, and
the conditional IPv4 source list (only when the type is 0x11; the IPv6
list is commented out in the source) (src/amt.py lines 140-146). -/
def recTailBytes (t rsvd s qrv qq ns : Nat) (srcs : List Nat) : List Nat :=
  ((rsvd % 16) * 16 + (s % 2) * 8 + qrv % 8) ::
  (qq % 256) ::
  (encodeBE 4 ns ++
   (if t = 0x11 then srcBytes srcs else []))

/-- Parsed tail fields of the embedded group record. -/
structure RecTail where
  rsvd : Nat
  s_flag : Nat
  qrv : Nat
  qqic : Nat
  num_of_srcs : Nat
  src_addrs : List Nat
  deriving Repr, DecidableEq

def parseRecTail (t : Nat) (bs : List Nat) : Option (RecTail × List Nat) :=
  Option.bind (readN 1 bs) fun a11 =>
  Option.bind (readN 1 a11.2) fun a12 =>
  Option.bind (readN 4 a12.2) fun a13 =>
  Option.bind (if t = 0x11 then readSrcs a13.1 a13.2 else some ([], a13.2)) fun a14 =>
  some (⟨a11.1 / 16, a11.1 / 8 % 2, a11.1 % 8, a12.1, a13.1, a14.1⟩, a14.2)

def AMT_Membership_Update.encode (m : AMT_Membership_Update) : List Nat :=
  updHdrBytes m.version m.type m.rsvd1 m.response_mac m.nonce ++
  (recFrontBytes m.igmp_mld_type m.igmp_max_resp_code m.checksum m.igmp_group_addr
    m.mld_rsvd1 m.mld_addr ++
   recTailBytes m.igmp_mld_type m.rsvd2 m.s_flag m.qrv m.qqic m.num_of_srcs m.src_addrs)

def AMT_Membership_Update.decode (bs : List Nat) : Option AMT_Membership_Update :=
  Option.bind (parseUpdHdr bs) fun h =>
  Option.bind (parseRecFront h.2) fun f =>
  Option.bind (parseRecTail f.1.igmp_mld_type f.2) fun tl =>
  if tl.2 = [] then
    some { version := h.1.version, type := h.1.type, rsvd1 := h.1.rsvd1,
           response_mac := h.1.response_mac, nonce := h.1.nonce,
           igmp_mld_type := f.1.igmp_mld_type,
           igmp_max_resp_code := f.1.igmp_max_resp_code, mld_code := 0,
           checksum := f.1.checksum, igmp_group_addr := f.1.igmp_group_addr,
           mld_rsvd1 := f.1.mld_rsvd1, mld_addr := f.1.mld_addr,
           rsvd2 := tl.1.rsvd, s_flag := tl.1.s_flag, qrv := tl.1.qrv,
           qqic := tl.1.qqic, num_of_srcs := tl.1.num_of_srcs,
           src_addrs := tl.1.src_addrs }
  else none

/-!
## AMT_Membership_Query (src/amt.py lines 82-110)

Fields: version:4, type:4 (default AMT_MEM_QUERY = 4), rsvd1:6, l_flag:1,
g_flag:1, rsvd2:16, response_mac (6 bytes), nonce:32, then the embedded
group record with `igmp_mld_type` defaulting to 0x11; the record fields
(conditional and unconditional) are identical to the Membership Update
record, so the same two record stages are reused, with the packed nibble
field named `rsvd3` in this class.
-/

structure AMT_Membership_Query where
  version : Nat := 0
  type : Nat := AMT_MEM_QUERY
  rsvd1 : Nat := 0
  l_flag : Nat := 0
  g_flag : Nat := 0
  rsvd2 : Nat := 0
  response_mac : Nat := 0
  nonce : Nat := 0
  igmp_mld_type : Nat := 0x11
  igmp_max_resp_code : Nat := 0
  mld_code : Nat := 0
  checksum : Nat := 0
  igmp_group_addr : Nat := 0
  mld_rsvd1 : Nat := 0
  mld_addr : Nat := 0
  rsvd3 : Nat := 0
  s_flag : Nat := 0
  qrv : Nat := 0
  qqic : Nat := 0
  num_of_srcs : Nat := 0
  src_addrs : List Nat := []
  deriving Repr, DecidableEq

/-- Structural validity for a Membership Query, as for the Update. -/
@[reducible] def AMT_Membership_Query.Valid (m : AMT_Membership_Query) : Prop :=
  m.version < 16 ∧ m.type < 16 ∧ m.rsvd1 < 64 ∧ m.l_flag < 2 ∧ m.g_flag < 2 ∧
  m.rsvd2 < 256 ^ 2 ∧ m.response_mac < 256 ^ 6 ∧ m.nonce < 256 ^ 4 ∧
  m.igmp_mld_type < 256 ∧ m.igmp_max_resp_code < 256 ∧ m.mld_code = 0 ∧
  m.checksum < 256 ^ 2 ∧ m.igmp_group_addr < 256 ^ 4 ∧ m.mld_rsvd1 < 256 ^ 2 ∧
  m.mld_addr < 256 ^ 16 ∧ m.rsvd3 < 16 ∧ m.s_flag < 2 ∧ m.qrv < 8 ∧ m.qqic < 256 ∧
  m.num_of_srcs < 256 ^ 4 ∧ m.num_of_srcs = m.src_addrs.length ∧
  (∀ a ∈ m.src_addrs, a < 256 ^ 4) ∧
  (m.igmp_mld_type ≠ 0x11 → m.igmp_max_resp_code = 0 ∧ m.igmp_group_addr = 0 ∧
    m.src_addrs = []) ∧
  (m.igmp_mld_type ≠ 130 → m.mld_rsvd1 = 0 ∧ m.mld_addr = 0)

/-- Header bytes of a Membership Query: version:4/type:4 byte, packed
rsvd1:6/l_flag:1/g_flag:1 byte, 2-byte rsvd2, 6-byte response_mac,
4-byte nonce (src/amt.py lines 85-92). -/
def qryHdrBytes (v ty r1 l g r2 mac no : Nat) : List Nat :=
  ((v % 16) * 16 + ty % 16) ::
  ((r1 % 64) * 4 + (l % 2) * 2 + g % 2) ::
  (encodeBE 2 r2 ++ (encodeBE 6 mac ++ encodeBE 4 no))

/-- Parsed header fields of a Membership Query. -/
structure HdrQ where
  version : Nat
  type : Nat
  rsvd1 : Nat
  l_flag : Nat
  g_flag : Nat
  rsvd2 : Nat
  response_mac : Nat
  nonce : Nat
  deriving Repr, DecidableEq

def parseQryHdr (bs : List Nat) : Option (HdrQ × List Nat) :=
  Option.bind (readN 1 bs) fun a1 =>
  Option.bind (readN 1 a1.2) fun a2 =>
  Option.bind (readN 2 a2.2) fun a3 =>
  Option.bind (readN 6 a3.2) fun a4 =>
  Option.bind (readN 4 a4.2) fun a5 =>
  some (⟨a1.1 / 16, a1.1 % 16, a2.1 / 4, a2.1 / 2 % 2, a2.1 % 2, a3.1, a4.1, a5.1⟩, a5.2)

def AMT_Membership_Query.encode (m : AMT_Membership_Query) : List Nat :=
  qryHdrBytes m.version m.type m.rsvd1 m.l_flag m.g_flag m.rsvd2 m.response_mac
    m.nonce ++
  (recFrontBytes m.igmp_mld_type m.igmp_max_resp_code m.checksum m.igmp_group_addr
    m.mld_rsvd1 m.mld_addr ++
   recTailBytes m.igmp_mld_type m.rsvd3 m.s_flag m.qrv m.qqic m.num_of_srcs m.src_addrs)

def AMT_Membership_Query.decode (bs : List Nat) : Option AMT_Membership_Query :=
  Option.bind (parseQryHdr bs) fun h =>
  Option.bind (parseRecFront h.2) fun f =>
  Option.bind (parseRecTail f.1.igmp_mld_type f.2) fun tl =>
  if tl.2 = [] then
    some { version := h.1.version, type := h.1.type, rsvd1 := h.1.rsvd1,
           l_flag := h.1.l_flag, g_flag := h.1.g_flag, rsvd2 := h.1.rsvd2,
           response_mac := h.1.response_mac, nonce := h.1.nonce,
           igmp_mld_type := f.1.igmp_mld_type,
           igmp_max_resp_code := f.1.igmp_max_resp_code, mld_code := 0,
           checksum := f.1.checksum, igmp_group_addr := f.1.igmp_group_addr,
           mld_rsvd1 := f.1.mld_rsvd1, mld_addr := f.1.mld_addr,
           rsvd3 := tl.1.rsvd, s_flag := tl.1.s_flag, qrv := tl.1.qrv,
           qqic := tl.1.qqic, num_of_srcs := tl.1.num_of_srcs,
           src_addrs := tl.1.src_addrs }
  else none

/-!
## Dispatcher

Modelled from the spec: src/amt.py defines only the message-type
constants (lines 27-33) and no dispatch function; spec section 4.4
describes `decode_any` as reading the low 4 bits of byte 0, routing type
values 1-5 to the matching message codec, and failing with
`UnsupportedMessageType` on 0, 6, 7 or any larger nibble.
-/

/-- Modelled from the spec: the typed result of `decode_any`
(spec section 4.4, `decode_any(bytes) -> TypedMessage`). -/
inductive TypedMessage where
  | disco : AMT_Discovery → TypedMessage
  | adv : AMT_Relay_Advertisement → TypedMessage
  | req : AMT_Relay_Request → TypedMessage
  | query : AMT_Membership_Query → TypedMessage
  | update : AMT_Membership_Update → TypedMessage
  deriving Repr, DecidableEq

/-- Modelled from the spec: the decode-error kinds the dispatcher can
report (spec section 7); `malformed` stands for the per-codec decode
failures, which this embedding's codecs report by returning `none`. -/
inductive DecodeErr where
  | unsupportedMessageType
  | malformed
  deriving Repr, DecidableEq

/-- Low 4 bits of byte 0 of a buffer; 16 is a sentinel for the empty
buffer (no byte, hence no valid type nibble). -/
def msgTypeOf (bs : List Nat) : Nat :=
  match bs with
  | [] => 16
  | b0 :: _ => b0 % 16

/-- Modelled from the spec: the dispatcher of spec section 4.4, absent
from src/amt.py.  Reads the low-4-bit type from byte 0 and routes to the
matching message codec; any nibble outside 1-5 fails with
`UnsupportedMessageType`. -/
def decode_any (bs : List Nat) : Except DecodeErr TypedMessage :=
  if msgTypeOf bs = AMT_RELAY_DISCO then
    match AMT_Discovery.decode bs with
    | some m => .ok (.disco m)
    | none => .error .malformed
  else if msgTypeOf bs = AMT_RELAY_ADV then
    match AMT_Relay_Advertisement.decode bs with
    | some m => .ok (.adv m)
    | none => .error .malformed
  else if msgTypeOf bs = AMT_REQUEST then
    match AMT_Relay_Request.decode bs with
    | some m => .ok (.req m)
    | none => .error .malformed
  else if msgTypeOf bs = AMT_MEM_QUERY then
    match AMT_Membership_Query.decode bs with
    | some m => .ok (.query m)
    | none => .error .malformed
  else if msgTypeOf bs = AMT_MEM_UPD then
    match AMT_Membership_Update.decode bs with
    | some m => .ok (.update m)
    | none => .error .malformed
  else .error .unsupportedMessageType

/-!
## Lemmas and claims
-/

theorem encodeBE_length (w n : Nat) : (encodeBE w n).length = w := by
  induction w generalizing n with
  | zero => rfl
  | succ w ih => simp [encodeBE, ih]

theorem decodeBEList_append (l1 l2 : List Nat) :
    decodeBEList (l1 ++ l2) = l2.foldl (fun acc b => acc * 256 + b) (decodeBEList l1) := by
  simp [decodeBEList, List.foldl_append]

theorem decodeBEList_encodeBE (w n : Nat) :
    decodeBEList (encodeBE w n) = n % 256 ^ w := by
  induction w generalizing n with
  | zero => simp [encodeBE, decodeBEList, Nat.mod_one]
  | succ w ih =>
    rw [encodeBE, decodeBEList_append, ih]
    show (n / 256 % 256 ^ w) * 256 + n % 256 = n % 256 ^ (w + 1)
    rw [pow_succ, Nat.mul_comm (256 ^ w) 256, Nat.mod_mul]
    ring

theorem readN_append (w : Nat) (l rest : List Nat) (h : l.length = w) :
    readN w (l ++ rest) = some (decodeBEList l, rest) := by
  subst h
  simp [readN, List.take_left, List.drop_left]

theorem readN_encodeBE (w n : Nat) (rest : List Nat) :
    readN w (encodeBE w n ++ rest) = some (n % 256 ^ w, rest) := by
  rw [readN_append w _ rest (encodeBE_length w n), decodeBEList_encodeBE]

theorem readN_encodeBE_nil (w n : Nat) :
    readN w (encodeBE w n) = some (n % 256 ^ w, []) := by
  have h := readN_encodeBE w n []
  rwa [List.append_nil] at h

theorem readN_one (b : Nat) (rest : List Nat) :
    readN 1 (b :: rest) = some (b, rest) := by
  simp [readN, decodeBEList]

theorem obind_some {α β : Type} (a : α) (f : α → Option β) :
    Option.bind (some a) f = f a := rfl

theorem srcBytes_length (l : List Nat) : (srcBytes l).length = 4 * l.length := by
  induction l with
  | nil => rfl
  | cons a t ih =>
    simp [srcBytes] at ih ⊢
    simp [encodeBE_length, ih]
    ring

theorem obind_none {α β : Type} (f : α → Option β) :
    Option.bind none f = none := rfl

theorem obind_const_none {α β : Type} (x : Option α) :
    Option.bind x (fun _ => (none : Option β)) = none := by
  cases x <;> rfl

theorem readSrcs_srcBytes (l rest : List Nat) (h : ∀ a ∈ l, a < 256 ^ 4) :
    readSrcs l.length (srcBytes l ++ rest) = some (l, rest) := by
  induction l with
  | nil => simp [srcBytes, readSrcs]
  | cons a t ih =>
    have ha : a < 256 ^ 4 := h a (by simp)
    have ht : ∀ x ∈ t, x < 256 ^ 4 := fun x hx => h x (by simp [hx])
    show readSrcs (t.length + 1) (srcBytes (a :: t) ++ rest) = some (a :: t, rest)
    have hsb : srcBytes (a :: t) = encodeBE 4 a ++ srcBytes t := rfl
    rw [hsb, List.append_assoc]
    have hne : encodeBE 4 a ++ (srcBytes t ++ rest) ≠ [] := by
      intro hcon
      have hlen := congrArg List.length hcon
      simp [encodeBE_length] at hlen
    simp only [readSrcs]
    rw [if_neg hne]
    simp only [readN_encodeBE, Nat.mod_eq_of_lt ha, ih ht]

theorem readSrcs_srcBytes_short :
    ∀ (l : List Nat) (count : Nat), l.length ≤ count → (∀ a ∈ l, a < 256 ^ 4) →
      readSrcs count (srcBytes l) = some (l, []) := by
  intro l
  induction l with
  | nil =>
    intro count _ _
    match count with
    | 0 => rfl
    | n + 1 => rfl
  | cons a t ih =>
    intro count hc h
    have ha : a < 256 ^ 4 := h a (by simp)
    have ht : ∀ x ∈ t, x < 256 ^ 4 := fun x hx => h x (by simp [hx])
    match count with
    | 0 => simp at hc
    | n + 1 =>
      have hc2 : t.length ≤ n := by simp at hc; omega
      have hsb : srcBytes (a :: t) = encodeBE 4 a ++ srcBytes t := rfl
      have hne : encodeBE 4 a ++ srcBytes t ≠ [] := by
        intro hcon
        have hlen := congrArg List.length hcon
        simp [encodeBE_length] at hlen
      rw [hsb]
      simp only [readSrcs]
      rw [if_neg hne]
      have hrdn : readN 4 (encodeBE 4 a ++ srcBytes t) = some (a, srcBytes t) := by
        rw [readN_encodeBE, Nat.mod_eq_of_lt ha]
      simp only [hrdn, ih n hc2 ht]

theorem adv_encode_none (m : AMT_Relay_Advertisement) :
    AMT_Relay_Advertisement.encode m = none := rfl

theorem adv_decode_none (bs : List Nat) :
    AMT_Relay_Advertisement.decode bs = none := by
  simp only [AMT_Relay_Advertisement.decode, relayAddrDissect, obind_none,
    obind_const_none]

theorem readSrcs_srcBytes_nil (l : List Nat) (h : ∀ a ∈ l, a < 256 ^ 4) :
    readSrcs l.length (srcBytes l) = some (l, []) := by
  have h2 := readSrcs_srcBytes l [] h
  rwa [List.append_nil] at h2

theorem roundtrip_disco (m : AMT_Discovery) (h : m.Valid) :
    AMT_Discovery.decode (AMT_Discovery.encode m) = some m := by
  obtain ⟨hv, ht, hr, hn⟩ := h
  simp only [AMT_Discovery.encode, AMT_Discovery.decode, readN_one, obind_some,
    readN_encodeBE, readN_encodeBE_nil, if_pos rfl]
  have e1 : (m.version % 16 * 16 + m.type % 16) / 16 = m.version := by omega
  have e2 : (m.version % 16 * 16 + m.type % 16) % 16 = m.type := by omega
  rw [e1, e2, Nat.mod_eq_of_lt hr, Nat.mod_eq_of_lt hn]
  simp

theorem roundtrip_req (m : AMT_Relay_Request) (h : m.Valid) :
    AMT_Relay_Request.decode (AMT_Relay_Request.encode m) = some m := by
  obtain ⟨hv, ht, h1, hp, h2, hn⟩ := h
  simp only [AMT_Relay_Request.encode, AMT_Relay_Request.decode, readN_one, obind_some,
    readN_encodeBE, readN_encodeBE_nil, if_pos rfl]
  have e1 : (m.version % 16 * 16 + m.type % 16) / 16 = m.version := by omega
  have e2 : (m.version % 16 * 16 + m.type % 16) % 16 = m.type := by omega
  have e3 : (m.rsvd1 % 128 * 2 + m.p_flag % 2) / 2 = m.rsvd1 := by omega
  have e4 : (m.rsvd1 % 128 * 2 + m.p_flag % 2) % 2 = m.p_flag := by omega
  rw [e1, e2, e3, e4, Nat.mod_eq_of_lt h2, Nat.mod_eq_of_lt hn]
  simp

theorem parseUpdHdr_bytes (v ty r1 mac no : Nat) (rest : List Nat)
    (hv : v < 16) (ht : ty < 16) (h1 : r1 < 256) (hmac : mac < 256 ^ 6)
    (hno : no < 256 ^ 4) :
    parseUpdHdr (updHdrBytes v ty r1 mac no ++ rest) = some (⟨v, ty, r1, mac, no⟩, rest) := by
  simp only [updHdrBytes, parseUpdHdr, List.cons_append, List.append_assoc, readN_one,
    obind_some, readN_encodeBE]
  have e1 : (v % 16 * 16 + ty % 16) / 16 = v := by omega
  have e2 : (v % 16 * 16 + ty % 16) % 16 = ty := by omega
  rw [e1, e2, Nat.mod_eq_of_lt h1, Nat.mod_eq_of_lt hmac, Nat.mod_eq_of_lt hno]

theorem parseRecFront_bytes (t mrc ck ga mr1 ma : Nat) (rest : List Nat)
    (ht : t < 256) (hmrc : mrc < 256) (hck : ck < 256 ^ 2) (hga : ga < 256 ^ 4)
    (hm1 : mr1 < 256 ^ 2) (hma : ma < 256 ^ 16)
    (hd1 : t ≠ 0x11 → mrc = 0 ∧ ga = 0) (hd2 : t ≠ 130 → mr1 = 0 ∧ ma = 0) :
    parseRecFront (recFrontBytes t mrc ck ga mr1 ma ++ rest) =
      some (⟨t, mrc, ck, ga, mr1, ma⟩, rest) := by
  by_cases hc : t = 0x11
  · subst hc
    obtain ⟨hb1, hb2⟩ := hd2 (by norm_num)
    simp [recFrontBytes, parseRecFront, List.cons_append, List.append_assoc, readN_one,
      obind_some, readN_encodeBE, Nat.mod_eq_of_lt hmrc, Nat.mod_eq_of_lt hck,
      Nat.mod_eq_of_lt hga, hb1, hb2]
    exact ⟨by simpa using hck, by simpa using hga⟩
  · by_cases hc2 : t = 130
    · subst hc2
      obtain ⟨hb1, hb2⟩ := hd1 (by norm_num)
      simp [recFrontBytes, parseRecFront, List.cons_append, List.append_assoc,
        List.nil_append, readN_one, obind_some, readN_encodeBE, Nat.mod_eq_of_lt hck,
        Nat.mod_eq_of_lt hm1, Nat.mod_eq_of_lt hma, hb1, hb2]
      exact ⟨by simpa using hck, by simpa using hm1, by simpa using hma⟩
    · obtain ⟨hb1, hb2⟩ := hd1 hc
      obtain ⟨hb3, hb4⟩ := hd2 hc2
      simp [recFrontBytes, parseRecFront, List.cons_append, List.append_assoc,
        List.nil_append, readN_one, obind_some, readN_encodeBE, Nat.mod_eq_of_lt ht,
        Nat.mod_eq_of_lt hck, hc, hc2, hb1, hb2, hb3, hb4]
      simpa using hck

theorem parseRecTail_bytes (t rsvd s qrv qq ns : Nat) (srcs rest : List Nat)
    (h2 : rsvd < 16) (hs : s < 2) (hq : qrv < 8) (hqq : qq < 256) (hns : ns < 256 ^ 4)
    (hnse : ns = srcs.length) (hsrc : ∀ a ∈ srcs, a < 256 ^ 4)
    (hd : t ≠ 0x11 → srcs = []) :
    parseRecTail t (recTailBytes t rsvd s qrv qq ns srcs ++ rest) =
      some (⟨rsvd, s, qrv, qq, ns, srcs⟩, rest) := by
  have e3 : (rsvd % 16 * 16 + s % 2 * 8 + qrv % 8) / 16 = rsvd := by omega
  have e4 : (rsvd % 16 * 16 + s % 2 * 8 + qrv % 8) / 8 % 2 = s := by omega
  have e5 : (rsvd % 16 * 16 + s % 2 * 8 + qrv % 8) % 8 = qrv := by omega
  have hrs : readSrcs ns (srcBytes srcs ++ rest) = some (srcs, rest) := by
    rw [hnse]
    exact readSrcs_srcBytes srcs rest hsrc
  have hns2 : ns % 4294967296 = ns := Nat.mod_eq_of_lt (by simpa using hns)
  have hqq2 : qq % 256 = qq := Nat.mod_eq_of_lt hqq
  by_cases hc : t = 0x11
  · subst hc
    simp [recTailBytes, parseRecTail, List.cons_append, List.append_assoc, readN_one,
      obind_some, readN_encodeBE, hns2, hqq2, hrs, e3, e4, e5]
  · rw [hd hc] at hrs ⊢
    simp [recTailBytes, parseRecTail, List.cons_append, List.append_assoc,
      List.nil_append, readN_one, obind_some, readN_encodeBE, hns2, hqq2, hrs,
      hc, e3, e4, e5]

theorem roundtrip_upd (m : AMT_Membership_Update) (h : m.Valid) :
    AMT_Membership_Update.decode (AMT_Membership_Update.encode m) = some m := by
  obtain ⟨v, ty, r1, mac, no, t, mrc, mc, ck, ga, mr1, ma, r2, s, q, qq, ns, srcs⟩ := m
  simp only [AMT_Membership_Update.Valid] at h
  obtain ⟨hv, ht0, h1, hmac, hn, hty, hmrc, hmc, hck, hga, hm1, hma, h2, hs, hq, hqq,
    hns, hnse, hsrc, hdef1, hdef2⟩ := h
  have hfront := parseRecFront_bytes t mrc ck ga mr1 ma
    (recTailBytes t r2 s q qq ns srcs) hty hmrc hck hga hm1 hma
    (fun hne => ⟨(hdef1 hne).1, (hdef1 hne).2.1⟩) hdef2
  have htail : parseRecTail t (recTailBytes t r2 s q qq ns srcs) =
      some (⟨r2, s, q, qq, ns, srcs⟩, []) := by
    have h3 := parseRecTail_bytes t r2 s q qq ns srcs [] h2 hs hq hqq hns hnse hsrc
      (fun hne => (hdef1 hne).2.2)
    rwa [List.append_nil] at h3
  rw [AMT_Membership_Update.encode, AMT_Membership_Update.decode]
  dsimp only
  rw [parseUpdHdr_bytes v ty r1 mac no _ hv ht0 h1 hmac hn, obind_some]
  dsimp only
  rw [hfront, obind_some]
  dsimp only
  rw [htail, obind_some]
  dsimp only
  rw [if_pos rfl, hmc]

theorem parseQryHdr_bytes (v ty r1 l g r2 mac no : Nat) (rest : List Nat)
    (hv : v < 16) (ht : ty < 16) (h1 : r1 < 64) (hl : l < 2) (hg : g < 2)
    (h2 : r2 < 256 ^ 2) (hmac : mac < 256 ^ 6) (hno : no < 256 ^ 4) :
    parseQryHdr (qryHdrBytes v ty r1 l g r2 mac no ++ rest) =
      some (⟨v, ty, r1, l, g, r2, mac, no⟩, rest) := by
  simp only [qryHdrBytes, parseQryHdr, List.cons_append, List.append_assoc, readN_one,
    obind_some, readN_encodeBE]
  have e1 : (v % 16 * 16 + ty % 16) / 16 = v := by omega
  have e2 : (v % 16 * 16 + ty % 16) % 16 = ty := by omega
  have e3 : (r1 % 64 * 4 + l % 2 * 2 + g % 2) / 4 = r1 := by omega
  have e4 : (r1 % 64 * 4 + l % 2 * 2 + g % 2) / 2 % 2 = l := by omega
  have e5 : (r1 % 64 * 4 + l % 2 * 2 + g % 2) % 2 = g := by omega
  rw [e1, e2, e3, e4, e5, Nat.mod_eq_of_lt h2, Nat.mod_eq_of_lt hmac,
    Nat.mod_eq_of_lt hno]

theorem roundtrip_query (m : AMT_Membership_Query) (h : m.Valid) :
    AMT_Membership_Query.decode (AMT_Membership_Query.encode m) = some m := by
  obtain ⟨v, ty, r1, l, g, r2h, mac, no, t, mrc, mc, ck, ga, mr1, ma, r3, s, q, qq,
    ns, srcs⟩ := m
  simp only [AMT_Membership_Query.Valid] at h
  obtain ⟨hv, ht0, h1, hl, hg, h2h, hmac, hn, hty, hmrc, hmc, hck, hga, hm1, hma, h3,
    hs, hq, hqq, hns, hnse, hsrc, hdef1, hdef2⟩ := h
  have hfront := parseRecFront_bytes t mrc ck ga mr1 ma
    (recTailBytes t r3 s q qq ns srcs) hty hmrc hck hga hm1 hma
    (fun hne => ⟨(hdef1 hne).1, (hdef1 hne).2.1⟩) hdef2
  have htail : parseRecTail t (recTailBytes t r3 s q qq ns srcs) =
      some (⟨r3, s, q, qq, ns, srcs⟩, []) := by
    have h4 := parseRecTail_bytes t r3 s q qq ns srcs [] h3 hs hq hqq hns hnse hsrc
      (fun hne => (hdef1 hne).2.2)
    rwa [List.append_nil] at h4
  rw [AMT_Membership_Query.encode, AMT_Membership_Query.decode]
  dsimp only
  rw [parseQryHdr_bytes v ty r1 l g r2h mac no _ hv ht0 h1 hl hg h2h hmac hn, obind_some]
  dsimp only
  rw [hfront, obind_some]
  dsimp only
  rw [htail, obind_some]
  dsimp only
  rw [if_pos rfl, hmc]

/-- C1 counterexample: the Relay Advertisement leg of the round-trip
claim is false of the program.  The relay_addr selectors read the
nonexistent `pkt.len` and raise AttributeError, so building an
advertisement never produces a byte sequence (encode is `none` at a
concrete, in-range message) and no buffer ever dissects to one (decode
of a well-formed 12-byte advertisement buffer is `none`); hence
decode(encode(m)) = m cannot hold for this message type. -/
theorem claim_C1_counterexample :
    AMT_Relay_Advertisement.encode
      { nonce := 9, relay_addr := RelayAddr.v4 2130706433 } = none ∧
    AMT_Relay_Advertisement.decode [2, 0, 0, 0, 0, 0, 0, 9, 127, 0, 0, 1] = none :=
  ⟨rfl, rfl⟩

/-- C1 amended: decode(encode(m)) = some m for every structurally valid
message of the four buildable types (Relay Discovery, Relay Request,
Membership Query, Membership Update); for Relay Advertisement every
build and every dissection fails (the `pkt.len` selectors raise
AttributeError), so no advertisement round-trips. -/
theorem claim_C1_roundtrip :
    (∀ m : AMT_Discovery, m.Valid →
       AMT_Discovery.decode (AMT_Discovery.encode m) = some m) ∧
    (∀ m : AMT_Relay_Request, m.Valid →
       AMT_Relay_Request.decode (AMT_Relay_Request.encode m) = some m) ∧
    (∀ m : AMT_Membership_Query, m.Valid →
       AMT_Membership_Query.decode (AMT_Membership_Query.encode m) = some m) ∧
    (∀ m : AMT_Membership_Update, m.Valid →
       AMT_Membership_Update.decode (AMT_Membership_Update.encode m) = some m) ∧
    (∀ m : AMT_Relay_Advertisement, AMT_Relay_Advertisement.encode m = none) ∧
    (∀ bs : List Nat, AMT_Relay_Advertisement.decode bs = none) :=
  ⟨roundtrip_disco, roundtrip_req, roundtrip_query, roundtrip_upd,
   adv_encode_none, adv_decode_none⟩

/-- C1 witness: the round trip evaluated at one concrete valid message of
each buildable type, and the advertisement failures at concrete inputs. -/
theorem claim_C1_roundtrip_witness :
    AMT_Discovery.decode (AMT_Discovery.encode { nonce := 7 }) = some { nonce := 7 } ∧
    AMT_Relay_Request.decode (AMT_Relay_Request.encode { p_flag := 1, nonce := 5 }) =
      some { p_flag := 1, nonce := 5 } ∧
    AMT_Membership_Query.decode
      (AMT_Membership_Query.encode
        { num_of_srcs := 2, src_addrs := [167772161, 167772162] }) =
      some { num_of_srcs := 2, src_addrs := [167772161, 167772162] } ∧
    AMT_Membership_Update.decode (AMT_Membership_Update.encode { nonce := 3 }) =
      some { nonce := 3 } ∧
    AMT_Relay_Advertisement.encode { nonce := 9, relay_addr := RelayAddr.v6 1 } = none ∧
    AMT_Relay_Advertisement.decode [2, 0, 0, 0, 0, 0, 0, 9] = none :=
  ⟨claim_C1_roundtrip.1 _ (by decide),
   claim_C1_roundtrip.2.1 _ (by decide),
   claim_C1_roundtrip.2.2.1 _ (by decide),
   claim_C1_roundtrip.2.2.2.1 _ (by decide),
   claim_C1_roundtrip.2.2.2.2.1 _,
   claim_C1_roundtrip.2.2.2.2.2 _⟩

/-- C9: encoding the Relay Discovery message with version 0, type 1 and
nonce 0x12345678 produces exactly 8 bytes, with the nonce in the last
4 bytes, big-endian. -/
theorem claim_C9_disco_encoding :
    AMT_Discovery.encode { version := 0, type := 1, rsvd := 0, nonce := 0x12345678 } =
      [1, 0, 0, 0, 0x12, 0x34, 0x56, 0x78] ∧
    (AMT_Discovery.encode { version := 0, type := 1, rsvd := 0, nonce := 0x12345678 }).length = 8 ∧
    (AMT_Discovery.encode { version := 0, type := 1, rsvd := 0, nonce := 0x12345678 }).drop 4 =
      encodeBE 4 0x12345678 := by
  refine ⟨rfl, rfl, rfl⟩

/-- C10: a Membership Update constructed with all defaults has
igmp_mld_type 0x16, and under that record type the encoding omits the
max-response-code byte, the group address and the source-address list
entirely (it is always 21 bytes and independent of those fields), even
when num_of_srcs is nonzero. -/
theorem claim_C10_update_defaults :
    (({} : AMT_Membership_Update).igmp_mld_type = 0x16) ∧
    (∀ m : AMT_Membership_Update, m.igmp_mld_type = 0x16 →
       (AMT_Membership_Update.encode m).length = 21 ∧
       ∀ x g : Nat, ∀ l : List Nat,
         AMT_Membership_Update.encode
           { m with igmp_max_resp_code := x, igmp_group_addr := g, src_addrs := l } =
         AMT_Membership_Update.encode m) := by
  refine ⟨rfl, fun m hm => ⟨?_, fun x g l => ?_⟩⟩
  · simp [AMT_Membership_Update.encode, updHdrBytes, recFrontBytes, recTailBytes, hm,
      encodeBE_length]
  · simp [AMT_Membership_Update.encode, updHdrBytes, recFrontBytes, recTailBytes, hm]

/-- C10 witness: the defaults fact and the field-independence fact at a
concrete update with a nonzero source count. -/
theorem claim_C10_update_defaults_witness :
    (AMT_Membership_Update.encode ({ num_of_srcs := 5 } : AMT_Membership_Update)).length = 21 ∧
    AMT_Membership_Update.encode
      { num_of_srcs := 5, igmp_max_resp_code := 7, igmp_group_addr := 9,
        src_addrs := [1, 2] } =
    AMT_Membership_Update.encode { num_of_srcs := 5 } :=
  ⟨(claim_C10_update_defaults.2 { num_of_srcs := 5 } rfl).1,
   (claim_C10_update_defaults.2 { num_of_srcs := 5 } rfl).2 7 9 [1, 2]⟩

theorem recBytes_length (t mrc ck ga mr1 ma rsvd s qrv qq ns : Nat) (srcs : List Nat) :
    (recFrontBytes t mrc ck ga mr1 ma).length +
      (recTailBytes t rsvd s qrv qq ns srcs).length =
      9 + (if t = 0x11 then 5 + 4 * srcs.length else if t = 130 then 18 else 0) := by
  by_cases hc : t = 0x11
  · simp [recFrontBytes, recTailBytes, hc, encodeBE_length, srcBytes_length]
    omega
  · by_cases hc2 : t = 130
    · simp [recFrontBytes, recTailBytes, hc2, encodeBE_length]
    · simp [recFrontBytes, recTailBytes, hc, hc2, encodeBE_length]

/-- C2 counterexample: the claim says every IGMP-class record type
(0x11, 0x12, 0x16, 0x17) carries an IPv4 group address and IPv4 source
list, and every MLD-class record type (130, 131, 132, 143) carries IPv6
fields.  On the code, the group address and source list exist only for
record type 0x11 and the MLD address fields only for 130: a type-0x16
record's encoding is identical whatever its group address and source
list, a type-131 record's encoding is identical whatever its mld_addr,
and a type-130 record's encoding is identical whatever its source list. -/
theorem claim_C2_counterexample :
    (AMT_Membership_Update.encode
       { igmp_mld_type := 0x16, igmp_group_addr := 167772161,
         num_of_srcs := 1, src_addrs := [167772162] } =
     AMT_Membership_Update.encode { igmp_mld_type := 0x16, num_of_srcs := 1 }) ∧
    (AMT_Membership_Update.encode { igmp_mld_type := 131, mld_addr := 42 } =
     AMT_Membership_Update.encode { igmp_mld_type := 131 }) ∧
    (AMT_Membership_Update.encode
       { igmp_mld_type := 130, num_of_srcs := 1, src_addrs := [167772162] } =
     AMT_Membership_Update.encode { igmp_mld_type := 130, num_of_srcs := 1 }) := by
  refine ⟨rfl, rfl, rfl⟩

/-- C2 amended: only record type 0x11 carries the (IPv4) group address,
the max-response-code byte and the IPv4 source list (5 extra bytes plus
4 per source); only record type 130 carries the MLD (IPv6) fields (18
extra bytes, no source list); the other six recognized types carry
neither, as the encoded lengths show. -/
theorem claim_C2_amended :
    (∀ m : AMT_Membership_Update,
       (AMT_Membership_Update.encode m).length =
         21 + (if m.igmp_mld_type = 0x11 then 5 + 4 * m.src_addrs.length
               else if m.igmp_mld_type = 130 then 18 else 0)) ∧
    (∀ m : AMT_Membership_Query,
       (AMT_Membership_Query.encode m).length =
         23 + (if m.igmp_mld_type = 0x11 then 5 + 4 * m.src_addrs.length
               else if m.igmp_mld_type = 130 then 18 else 0)) := by
  constructor
  · intro m
    have h := recBytes_length m.igmp_mld_type m.igmp_max_resp_code m.checksum
      m.igmp_group_addr m.mld_rsvd1 m.mld_addr m.rsvd2 m.s_flag m.qrv m.qqic
      m.num_of_srcs m.src_addrs
    simp [AMT_Membership_Update.encode, updHdrBytes, encodeBE_length]
    omega
  · intro m
    have h := recBytes_length m.igmp_mld_type m.igmp_max_resp_code m.checksum
      m.igmp_group_addr m.mld_rsvd1 m.mld_addr m.rsvd3 m.s_flag m.qrv m.qqic
      m.num_of_srcs m.src_addrs
    simp [AMT_Membership_Query.encode, qryHdrBytes, encodeBE_length]
    omega

/-- C3 counterexample: the checksum field is never computed or verified.
The default Membership Update encodes with checksum bytes 0, and flipping
a single bit of the encoded payload (the low bit of the last nonce byte,
byte 11) yields a buffer that still decodes successfully, to the update
with nonce 1 - no ChecksumMismatch is possible. -/
theorem claim_C3_counterexample :
    AMT_Membership_Update.encode ({} : AMT_Membership_Update) =
      [5, 0, 0, 0, 0, 0, 0, 0, 0, 0, 0, 0, 0x16, 0, 0, 0, 0, 0, 0, 0, 0] ∧
    AMT_Membership_Update.decode
      [5, 0, 0, 0, 0, 0, 0, 0, 0, 0, 0, 1, 0x16, 0, 0, 0, 0, 0, 0, 0, 0] =
      some { nonce := 1 } := by
  refine ⟨rfl, by decide⟩

/-- C3 amended: the GroupRecord checksum is an uninterpreted 16-bit field.
Encode emits the caller-stored value verbatim (the `None` default builds
as 0) without computing an Internet checksum, and decode reads it back
without any verification: whatever 16-bit value is stored in the checksum
field, decoding the encoding succeeds and returns it unchanged. -/
theorem claim_C3_amended :
    ∀ m : AMT_Membership_Update, m.Valid → ∀ c : Nat, c < 256 ^ 2 →
      AMT_Membership_Update.decode
        (AMT_Membership_Update.encode { m with checksum := c }) =
        some { m with checksum := c } := by
  intro m h c hc
  apply roundtrip_upd
  obtain ⟨h1, h2, h3, h4, h5, h6, h7, h8, _, h10, h11, h12, h13, h14, h15, h16, h17,
    h18, h19, h20, h21⟩ := h
  exact ⟨h1, h2, h3, h4, h5, h6, h7, h8, hc, h10, h11, h12, h13, h14, h15, h16, h17,
    h18, h19, h20, h21⟩

/-- C3 amended witness: an arbitrary stored checksum (0xBEEF) survives the
round trip unverified. -/
theorem claim_C3_amended_witness :
    AMT_Membership_Update.decode
      (AMT_Membership_Update.encode ({ checksum := 48879 } : AMT_Membership_Update)) =
      some { checksum := 48879 } :=
  claim_C3_amended {} (by decide) 48879 (by decide)

/-- C4 counterexample: a 12-byte Relay Advertisement buffer does not
parse a 4-byte IPv4 relay address as the claim states: the relay_addr
selectors read the nonexistent `pkt.len` and raise AttributeError, so
the dissection fails (no value). -/
theorem claim_C4_counterexample :
    AMT_Relay_Advertisement.decode [2, 0, 0, 0, 0, 0, 0, 1, 10, 0, 0, 1] = none :=
  rfl

/-- C4 amended: decoding a Relay Advertisement fails for every buffer,
of any total length - 12 and 20 included - because the relay_addr
selectors read the nonexistent `pkt.len` and raise AttributeError before
any variant is chosen; no length-based dispatch and no
AmbiguousAddressFamily error occur, and every build fails the same way. -/
theorem claim_C4_amended :
    (∀ bs : List Nat, AMT_Relay_Advertisement.decode bs = none) ∧
    (∀ m : AMT_Relay_Advertisement, AMT_Relay_Advertisement.encode m = none) :=
  ⟨adv_decode_none, adv_encode_none⟩

/-- C5 counterexample: the fields of a Relay Request pack to 8 bytes, not
the 9 claimed (and recorded in the source constant AMT_REQUEST_MSG_LEN). -/
theorem claim_C5_counterexample :
    (AMT_Relay_Request.encode ({} : AMT_Relay_Request)).length = 8 ∧
    AMT_REQUEST_MSG_LEN = 9 ∧
    (AMT_Relay_Request.encode ({} : AMT_Relay_Request)).length ≠ AMT_REQUEST_MSG_LEN := by
  refine ⟨rfl, rfl, by decide⟩

/-- C5 amended: every encoded Relay Request is exactly 8 bytes, laid out
as version:4, type:4, reserved:7, p_flag:1, reserved:16, nonce:32 (the
source constant AMT_REQUEST_MSG_LEN = 9 overstates the length by one). -/
theorem claim_C5_amended :
    ∀ m : AMT_Relay_Request, m.Valid →
      (AMT_Relay_Request.encode m).length = 8 ∧
      AMT_Relay_Request.encode m =
        (m.version * 16 + m.type) :: (m.rsvd1 * 2 + m.p_flag) ::
        (encodeBE 2 m.rsvd2 ++ encodeBE 4 m.nonce) := by
  intro m h
  obtain ⟨hv, ht, h1, hp, h2, hn⟩ := h
  constructor
  · simp [AMT_Relay_Request.encode, encodeBE_length]
  · simp [AMT_Relay_Request.encode, Nat.mod_eq_of_lt hv, Nat.mod_eq_of_lt ht,
      Nat.mod_eq_of_lt h1, Nat.mod_eq_of_lt hp]

/-- C5 amended witness: the 8-byte layout at a concrete request. -/
theorem claim_C5_amended_witness :
    (AMT_Relay_Request.encode ({ p_flag := 1, nonce := 2 } : AMT_Relay_Request)).length = 8 ∧
    AMT_Relay_Request.encode ({ p_flag := 1, nonce := 2 } : AMT_Relay_Request) =
      3 :: 1 :: (encodeBE 2 0 ++ encodeBE 4 2) :=
  claim_C5_amended { p_flag := 1, nonce := 2 } (by decide)

/-- C6 counterexample: both halves of the claim fail on the code.
Encoding a GroupRecord whose declared num_of_srcs (3) differs from its
source-list length (2) does not fail with InvalidSourceCount: it
succeeds, emitting the declared count in the count field (bytes 22-25)
and the two stored addresses on the wire.  And decoding a buffer that
declares num_of_srcs = 1000 with only one 4-byte address remaining does
not fail either: the list reader stops at the end of the buffer and the
record dissects successfully with the single address that fits. -/
theorem claim_C6_counterexample :
    AMT_Membership_Update.encode
      { igmp_mld_type := 0x11, num_of_srcs := 3,
        src_addrs := [167772161, 167772162] } =
      [5, 0, 0, 0, 0, 0, 0, 0, 0, 0, 0, 0, 17, 0, 0, 0, 0, 0, 0, 0, 0, 0,
       0, 0, 0, 3, 10, 0, 0, 1, 10, 0, 0, 2] ∧
    AMT_Membership_Update.decode
      [5, 0, 0, 0, 0, 0, 0, 0, 0, 0, 0, 0, 17, 0, 0, 0, 0, 0, 0, 0, 0, 0,
       0, 0, 3, 232, 10, 0, 0, 1] =
      some { igmp_mld_type := 0x11, num_of_srcs := 1000,
             src_addrs := [167772161] } := by
  refine ⟨by decide, by decide⟩

/-- C6 amended: encoding never validates the declared count against the
stored list (the encoded length tracks the list, 26 + 4 per stored
source, regardless of num_of_srcs).  On decode the source-list reader
stops, successfully, at the end of the buffer: a declared count at least
the number of stored addresses reads exactly the stored addresses, so a
count exceeding the remaining data silently yields the shorter list that
fits (shown concretely for num_of_srcs = 1000 with one address); decode
fails only when the remainder ends in the middle of a 4-byte address. -/
theorem claim_C6_amended :
    (∀ m : AMT_Membership_Update, m.igmp_mld_type = 0x11 →
       (AMT_Membership_Update.encode m).length = 26 + 4 * m.src_addrs.length) ∧
    (∀ (l : List Nat) (count : Nat), l.length ≤ count → (∀ a ∈ l, a < 256 ^ 4) →
       readSrcs count (srcBytes l) = some (l, [])) ∧
    AMT_Membership_Update.decode
      [5, 0, 0, 0, 0, 0, 0, 0, 0, 0, 0, 0, 17, 0, 0, 0, 0, 0, 0, 0, 0, 0,
       0, 0, 3, 232, 10, 0, 0, 1] =
      some { igmp_mld_type := 0x11, num_of_srcs := 1000,
             src_addrs := [167772161] } ∧
    AMT_Membership_Update.decode
      [5, 0, 0, 0, 0, 0, 0, 0, 0, 0, 0, 0, 17, 0, 0, 0, 0, 0, 0, 0, 0, 0,
       0, 0, 3, 232, 10, 0] = none := by
  refine ⟨?_, readSrcs_srcBytes_short, by decide, by decide⟩
  intro m hm
  simp [AMT_Membership_Update.encode, updHdrBytes, recFrontBytes, recTailBytes, hm,
    encodeBE_length, srcBytes_length]
  omega

/-- C6 amended witness: the mismatched record of the counterexample
encodes to 26 + 4 * 2 = 34 bytes, and a declared count of 5 over two
stored addresses reads exactly those two addresses. -/
theorem claim_C6_amended_witness :
    (AMT_Membership_Update.encode
      ({ igmp_mld_type := 0x11, num_of_srcs := 3,
         src_addrs := [167772161, 167772162] } : AMT_Membership_Update)).length = 34 ∧
    readSrcs 5 (srcBytes [1, 2]) = some ([1, 2], []) :=
  ⟨claim_C6_amended.1 _ rfl,
   claim_C6_amended.2.1 [1, 2] 5 (by decide) (by decide)⟩

/-- C7 counterexample: a GroupRecord with record_type 200 (outside the
eight recognized values) does not fail with UnknownRecordType: it decodes
successfully, with no conditional fields. -/
theorem claim_C7_counterexample :
    AMT_Membership_Update.decode
      (AMT_Membership_Update.encode { igmp_mld_type := 200 }) =
      some { igmp_mld_type := 200 } := by
  decide

/-- C7 amended: no record-type check exists: every byte value of
igmp_mld_type (all 256 of them, the eight documented ones included)
decodes without error given a well-formed remainder of the buffer. -/
theorem claim_C7_amended :
    ∀ t : Nat, t < 256 →
      AMT_Membership_Update.decode
        (AMT_Membership_Update.encode { igmp_mld_type := t }) =
        some { igmp_mld_type := t } := by
  intro t ht
  apply roundtrip_upd
  simp [AMT_Membership_Update.Valid, AMT_MEM_UPD, ht]

/-- C7 amended witness: all eight documented record types decode without
error. -/
theorem claim_C7_amended_witness :
    (AMT_Membership_Update.decode (AMT_Membership_Update.encode { igmp_mld_type := 0x11 }) =
       some { igmp_mld_type := 0x11 }) ∧
    (AMT_Membership_Update.decode (AMT_Membership_Update.encode { igmp_mld_type := 0x12 }) =
       some { igmp_mld_type := 0x12 }) ∧
    (AMT_Membership_Update.decode (AMT_Membership_Update.encode { igmp_mld_type := 0x16 }) =
       some { igmp_mld_type := 0x16 }) ∧
    (AMT_Membership_Update.decode (AMT_Membership_Update.encode { igmp_mld_type := 0x17 }) =
       some { igmp_mld_type := 0x17 }) ∧
    (AMT_Membership_Update.decode (AMT_Membership_Update.encode { igmp_mld_type := 130 }) =
       some { igmp_mld_type := 130 }) ∧
    (AMT_Membership_Update.decode (AMT_Membership_Update.encode { igmp_mld_type := 131 }) =
       some { igmp_mld_type := 131 }) ∧
    (AMT_Membership_Update.decode (AMT_Membership_Update.encode { igmp_mld_type := 132 }) =
       some { igmp_mld_type := 132 }) ∧
    (AMT_Membership_Update.decode (AMT_Membership_Update.encode { igmp_mld_type := 143 }) =
       some { igmp_mld_type := 143 }) :=
  ⟨claim_C7_amended 17 (by decide), claim_C7_amended 18 (by decide),
   claim_C7_amended 22 (by decide), claim_C7_amended 23 (by decide),
   claim_C7_amended 130 (by decide), claim_C7_amended 131 (by decide),
   claim_C7_amended 132 (by decide), claim_C7_amended 143 (by decide)⟩

/-- C8: the dispatcher reads the low 4 bits of byte 0 and routes decoding
to the matching message codec: nibbles 1, 3, 4 and 5 decode as Relay
Discovery, Relay Request, Membership Query and Membership Update
(exhibited on every valid encoded message of those types); nibble 2
routes to the Relay Advertisement codec, whose unconditional failure
(AttributeError, see `relayAddrDissect`) is propagated as a decode
error, never as UnsupportedMessageType; and every nibble outside 1-5
(0, 6, 7 or greater) fails with UnsupportedMessageType.  The dispatcher
is modelled from spec section 4.4; src/amt.py contains only the type
constants. -/
theorem claim_C8_dispatch :
    (∀ b0 : Nat, ∀ rest : List Nat, b0 % 16 = 0 ∨ 6 ≤ b0 % 16 →
       decode_any (b0 :: rest) = .error .unsupportedMessageType) ∧
    (∀ m : AMT_Discovery, m.Valid → m.type = AMT_RELAY_DISCO →
       decode_any (AMT_Discovery.encode m) = .ok (.disco m)) ∧
    (∀ b0 : Nat, ∀ rest : List Nat, b0 % 16 = AMT_RELAY_ADV →
       decode_any (b0 :: rest) = .error .malformed) ∧
    (∀ m : AMT_Relay_Request, m.Valid → m.type = AMT_REQUEST →
       decode_any (AMT_Relay_Request.encode m) = .ok (.req m)) ∧
    (∀ m : AMT_Membership_Query, m.Valid → m.type = AMT_MEM_QUERY →
       decode_any (AMT_Membership_Query.encode m) = .ok (.query m)) ∧
    (∀ m : AMT_Membership_Update, m.Valid → m.type = AMT_MEM_UPD →
       decode_any (AMT_Membership_Update.encode m) = .ok (.update m)) := by
  refine ⟨?_, ?_, ?_, ?_, ?_, ?_⟩
  · intro b0 rest h
    have hm : msgTypeOf (b0 :: rest) = b0 % 16 := rfl
    simp only [decode_any, hm, AMT_RELAY_DISCO, AMT_RELAY_ADV, AMT_REQUEST,
      AMT_MEM_QUERY, AMT_MEM_UPD]
    rw [if_neg (by omega), if_neg (by omega), if_neg (by omega), if_neg (by omega),
      if_neg (by omega)]
  · intro m hv htype
    simp only [AMT_RELAY_DISCO] at htype
    have hm : msgTypeOf (AMT_Discovery.encode m) = 1 := by
      simp [msgTypeOf, AMT_Discovery.encode]
      omega
    simp only [decode_any, hm, AMT_RELAY_DISCO]
    rw [if_pos trivial, roundtrip_disco m hv]
  · intro b0 rest h
    simp only [AMT_RELAY_ADV] at h
    have hm : msgTypeOf (b0 :: rest) = 2 := by
      simp [msgTypeOf, h]
    simp only [decode_any, hm, AMT_RELAY_DISCO, AMT_RELAY_ADV]
    rw [if_pos trivial, adv_decode_none]
    norm_num
  · intro m hv htype
    simp only [AMT_REQUEST] at htype
    have hm : msgTypeOf (AMT_Relay_Request.encode m) = 3 := by
      simp [msgTypeOf, AMT_Relay_Request.encode]
      omega
    simp only [decode_any, hm, AMT_RELAY_DISCO, AMT_RELAY_ADV, AMT_REQUEST]
    rw [if_pos trivial, roundtrip_req m hv]
    norm_num
  · intro m hv htype
    simp only [AMT_MEM_QUERY] at htype
    have hm : msgTypeOf (AMT_Membership_Query.encode m) = 4 := by
      simp [msgTypeOf, AMT_Membership_Query.encode, qryHdrBytes, List.cons_append]
      omega
    simp only [decode_any, hm, AMT_RELAY_DISCO, AMT_RELAY_ADV, AMT_REQUEST,
      AMT_MEM_QUERY]
    rw [if_pos trivial, roundtrip_query m hv]
    norm_num
  · intro m hv htype
    simp only [AMT_MEM_UPD] at htype
    have hm : msgTypeOf (AMT_Membership_Update.encode m) = 5 := by
      simp [msgTypeOf, AMT_Membership_Update.encode, updHdrBytes, List.cons_append]
      omega
    simp only [decode_any, hm, AMT_RELAY_DISCO, AMT_RELAY_ADV, AMT_REQUEST,
      AMT_MEM_QUERY, AMT_MEM_UPD]
    rw [if_pos trivial, roundtrip_upd m hv]
    norm_num

/-- C8 witness: unsupported nibbles 7 and 0 are rejected, one concrete
valid message of each buildable type is routed to its codec, and a
well-formed 12-byte nibble-2 buffer is routed to the Relay Advertisement
codec whose failure comes back as a decode error. -/
theorem claim_C8_dispatch_witness :
    decode_any [7, 1, 2] = .error .unsupportedMessageType ∧
    decode_any [0] = .error .unsupportedMessageType ∧
    decode_any (AMT_Discovery.encode {}) = .ok (.disco {}) ∧
    decode_any [2, 0, 0, 0, 0, 0, 0, 1, 10, 0, 0, 1] = .error .malformed ∧
    decode_any (AMT_Relay_Request.encode {}) = .ok (.req {}) ∧
    decode_any (AMT_Membership_Query.encode {}) = .ok (.query {}) ∧
    decode_any (AMT_Membership_Update.encode {}) = .ok (.update {}) :=
  ⟨claim_C8_dispatch.1 7 [1, 2] (by decide),
   claim_C8_dispatch.1 0 [] (by decide),
   claim_C8_dispatch.2.1 {} (by decide) rfl,
   claim_C8_dispatch.2.2.1 2 [0, 0, 0, 0, 0, 0, 1, 10, 0, 0, 1] (by decide),
   claim_C8_dispatch.2.2.2.1 {} (by decide) rfl,
   claim_C8_dispatch.2.2.2.2.1 {} (by decide) rfl,
   claim_C8_dispatch.2.2.2.2.2 {} (by decide) rfl⟩

end AMT
